import Mathlib

set_option maxHeartbeats 1000000

/-!
Shallow embedding of the temporal-scheduling core of a Telegram/Notion
secretary bot: the rest/task interval store (`apps/telegram_bot/rest.py`),
the reminder tracker (`apps/telegram_bot/tracker.py`), user-state
normalization (`apps/telegram_bot/user_state.py`), the proactivity scheduler
(`apps/telegram_bot/proactivity.py`) and the task-session monitor
(`apps/telegram_bot/session_monitor.py`).

Modelling conventions:
* timestamps and durations are integers (seconds since an arbitrary epoch);
  `datetime.utcnow()` becomes an explicit `now` argument;
* a `threading.Timer` is a record of its delay and whether `start()` was
  invoked on it; cancelling a timer is modelled by dropping/replacing it;
* sending a chat message is modelled by appending to a list of `Msg`;
* Python dicts become association lists that keep insertion order
  (assignment to a fresh key appends, assignment to a present key updates
  in place, `pop` removes);
* the random `uuid4()` window id is an explicit `newId` argument;
* JSON (de)serialisation of stored records is treated as the identity.
-/

-- Timestamps and durations are plain integers (seconds).

/-- A `threading.Timer`: its delay in seconds and whether `start()` ran. -/
structure PyTimer where
  delay : Int
  started : Bool
  deriving Repr, DecidableEq

/-- An outbound chat message (a `send_message` call). -/
structure Msg where
  chat_id : Int
  text : String
  deriving Repr, DecidableEq

/-- `rest.py` `RestWindow` / its JSON payload. `stop` embeds the Python field
`end` (a Lean keyword). -/
structure RestWindow where
  id : String
  chat_id : Int
  start : Int
  stop : Int
  status : String
  note : String
  created_at : Int
  session_type : String
  task_id : Option String
  task_name : Option String
  deriving Repr, DecidableEq

abbrev RestStore := List RestWindow

/-- Python `str.strip()`: drop whitespace from both ends. (It stands in for
`String.trim`, whose `Substring` implementation is well-founded recursion
that the kernel cannot evaluate.) -/
def String.strip (s : String) : String :=
  ⟨((s.data.dropWhile Char.isWhitespace).reverse.dropWhile
    Char.isWhitespace).reverse⟩

/-- `RestScheduleService._prune_expired`: drop rest-kind windows whose end has
passed. (The 30-minute sweep of the recent-cancel map is
`prune_recent_cancelled` below.) -/
def prune_expired (now : Int) (store : RestStore) : RestStore :=
  store.filter (fun w => !(decide (w.stop ≤ now) && w.session_type == "rest"))

/-- The range test of the merge loop in `add_window`, in the claim's words:
the candidate range `[s,e]` overlaps `w` or touches it at a boundary. -/
def overlaps_or_touches (s e : Int) (w : RestWindow) : Prop :=
  (¬ (e ≤ w.start ∨ s ≥ w.stop)) ∨ e = w.start ∨ s = w.stop

instance (s e : Int) (w : RestWindow) : Decidable (overlaps_or_touches s e w) := by
  unfold overlaps_or_touches; infer_instance

/-- The full guard of the merge loop in `add_window`: same chat, status
neither cancelled nor rejected, rest kind, and `overlaps_or_touches`. -/
def mergeable (chat : Int) (s e : Int) (w : RestWindow) : Prop :=
  w.chat_id = chat ∧ w.status ≠ "cancelled" ∧ w.status ≠ "rejected" ∧
    w.session_type = "rest" ∧ overlaps_or_touches s e w

instance (chat : Int) (s e : Int) (w : RestWindow) : Decidable (mergeable chat s e w) := by
  unfold mergeable; infer_instance

/-- Result of the merge loop of `add_window`: the extended range, the
collected notes, the windows left in the store, and (returned in addition to
what the source keeps, so that theorems can name them) the windows the loop
popped from the store. -/
structure MergeResult where
  start : Int
  stop : Int
  notes : List String
  kept : RestStore
  merged : RestStore
  deriving Repr, DecidableEq

/-- The `for window_id, payload in list(self._data.items())` merge loop of
`RestScheduleService.add_window`: windows are visited in store order; every
`mergeable` one widens the running range, contributes its non-empty stripped
note, and is popped. -/
def merge_pass (chat : Int) : Int → Int → List String → RestStore → MergeResult
  | s, e, notes, [] => ⟨s, e, notes, [], []⟩
  | s, e, notes, w :: rest =>
    if mergeable chat s e w then
      let r := merge_pass chat (min s w.start) (max e w.stop)
        (notes ++ if w.note.strip ≠ "" then [w.note.strip] else []) rest
      { r with merged := w :: r.merged }
    else
      let r := merge_pass chat s e notes rest
      { r with kept := w :: r.kept }

/-- `dict.fromkeys`: de-duplicate keeping first occurrences. -/
def dedupFirst : List String → List String :=
  go []
where
  go : List String → List String → List String
    | _, [] => []
    | seen, x :: xs => if x ∈ seen then go seen xs else x :: go (x :: seen) xs

/-- `RestScheduleService.add_window`. Returns the call result (the hydrated
new window, or the `ValueError` message) together with the post-call store;
on the error path the store still reflects the expiry sweep that runs first. -/
def add_window (now : Int) (chat : Int) (s e : Int) (note : String)
    (status : String) (session_type : String)
    (task_id task_name : Option String) (newId : String)
    (store : RestStore) : Except String RestWindow × RestStore :=
  let store1 := prune_expired now store
  if e ≤ s then (.error "end must be after start", store1)
  else
    let notes0 := if note.strip ≠ "" then [note.strip] else []
    let normalized := if session_type = "" then "rest" else session_type
    let r :=
      if normalized = "rest" then merge_pass chat s e notes0 store1
      else ⟨s, e, notes0, store1, []⟩
    let combined :=
      if r.notes = [] then "" else String.intercalate "；" (dedupFirst r.notes)
    let w : RestWindow :=
      { id := newId, chat_id := chat, start := r.start, stop := r.stop,
        status := status, note := combined, created_at := now,
        session_type := normalized, task_id := task_id, task_name := task_name }
    (.ok w, r.kept ++ [w])

/-- Stable insertion into a start-sorted list (`list.sort(key=start)`). -/
def insertByStart (w : RestWindow) : List RestWindow → List RestWindow
  | [] => [w]
  | x :: xs => if w.start ≤ x.start then w :: x :: xs else x :: insertByStart w xs

def sortByStart : List RestWindow → List RestWindow
  | [] => []
  | x :: xs => insertByStart x (sortByStart xs)

/-- `RestScheduleService.list_windows` (result plus the store after the
expiry sweep). -/
def list_windows (now : Int) (chat : Int) (include_past : Bool)
    (store : RestStore) : List RestWindow × RestStore :=
  let store1 := prune_expired now store
  let res := store1.filter (fun w =>
    w.chat_id == chat &&
    !(w.status == "cancelled" || w.status == "rejected") &&
    (include_past || decide (now ≤ w.stop)))
  (sortByStart res, store1)

/-- `RestScheduleService.current_window`: first approved window of the given
kind whose closed range contains `when` (defaulting to `now`). -/
def current_window (now : Int) (chat : Int) (when : Option Int)
    (session_type : String) (store : RestStore) : Option RestWindow :=
  let t := when.getD now
  (prune_expired now store).find? (fun w =>
    w.chat_id == chat && w.status == "approved" &&
    w.session_type == session_type &&
    decide (w.start ≤ t) && decide (t ≤ w.stop))

/-- `RestScheduleService.is_resting`. -/
def is_resting (now : Int) (chat : Int) (when : Option Int)
    (store : RestStore) : Bool :=
  (current_window now chat when "rest" store).isSome

/-- `RestScheduleService.has_active_task_block`. -/
def has_active_task_block (now : Int) (chat : Int) (when : Option Int)
    (store : RestStore) : Bool :=
  (current_window now chat when "task" store).isSome

def minTime? : List Int → Option Int
  | [] => none
  | t :: ts =>
    match minTime? ts with
    | none => some t
    | some m => some (min t m)

/-- `RestScheduleService.next_resume_time`: minimum end among approved rest
windows of the chat ending after `when`. -/
def next_resume_time (now : Int) (chat : Int) (when : Option Int)
    (store : RestStore) : Option Int :=
  let t := when.getD now
  minTime? (((prune_expired now store).filter (fun w =>
    w.chat_id == chat && w.status == "approved" &&
    w.session_type == "rest" && decide (t < w.stop))).map (fun w => w.stop))

/-- `RestScheduleService.next_window`: first upcoming rest window. -/
def next_window (now : Int) (chat : Int) (store : RestStore) : Option RestWindow :=
  ((list_windows now chat false store).1.filter
    (fun w => w.session_type == "rest")).head?

/-- `RestScheduleService.get_window` (with the store after the sweep). -/
def get_window (now : Int) (wid : String) (store : RestStore) :
    Option RestWindow × RestStore :=
  let store1 := prune_expired now store
  (store1.find? (fun w => w.id == wid), store1)

/-- `RestScheduleService.delete_window`. -/
def delete_window (now : Int) (wid : String) (store : RestStore) :
    Bool × RestStore :=
  let store1 := prune_expired now store
  if store1.any (fun w => w.id == wid) then
    (true, store1.filter (fun w => w.id != wid))
  else (false, store1)

/-- The 30-minute sweep of `self._recent_cancelled` in `_prune_expired`. -/
def prune_recent_cancelled (now : Int) (recent : List (Int × Int)) :
    List (Int × Int) :=
  recent.filter (fun p => !(decide (p.2 < now - 1800)))

/-- `RestScheduleService.recent_cancelled_at` (after the sweep). -/
def recent_cancelled_at (now : Int) (chat : Int)
    (recent : List (Int × Int)) : Option Int :=
  (prune_recent_cancelled now recent).lookup chat

/-! ### Claim C7: AddWindow with an invalid range -/

/-- A window that has already expired at time 10 (used as a counterexample
store). -/
def w_expired : RestWindow :=
  { id := "w0", chat_id := 1, start := 0, stop := 5, status := "approved",
    note := "", created_at := 0, session_type := "rest",
    task_id := none, task_name := none }

/-- C7 (counterexample): `AddWindow(end<=start)` does mutate the store: the
expiry sweep that runs before the range check removes the expired window, so
the failing call does not leave the store unchanged. -/
theorem add_window_invalid_range_counterexample :
    (add_window 10 1 3 2 "" "approved" "rest" none none "w9" [w_expired]).1 =
      .error "end must be after start" ∧
    (add_window 10 1 3 2 "" "approved" "rest" none none "w9" [w_expired]).2 ≠
      [w_expired] := by
  constructor
  · rfl
  · decide

/-- C7 (amended): `AddWindow(end<=start)` fails with the invalid-range error
and adds, merges and modifies nothing; the only mutation of the store is the
expiry sweep that runs first (rest windows with `end <= now` are removed,
everything else is exactly preserved). -/
theorem add_window_invalid_range (now : Int) (chat : Int) (s e : Int)
    (note status session_type : String) (tid tname : Option String)
    (newId : String) (store : RestStore) (h : e ≤ s) :
    (add_window now chat s e note status session_type tid tname newId store).1 =
      .error "end must be after start" ∧
    (add_window now chat s e note status session_type tid tname newId store).2 =
      prune_expired now store ∧
    (∀ w ∈ store, ¬ (w.stop ≤ now ∧ w.session_type = "rest") →
      w ∈ (add_window now chat s e note status session_type tid tname newId store).2) ∧
    (∀ w ∈ (add_window now chat s e note status session_type tid tname newId store).2,
      w ∈ store) := by
  refine ⟨by simp [add_window, h], by simp [add_window, h], ?_, ?_⟩
  · intro w hw hkeep
    simp only [add_window, if_pos h]
    simp only [prune_expired, List.mem_filter, hw, true_and]
    simp only [Bool.not_eq_true', Bool.and_eq_false_iff]
    rcases Decidable.em (w.stop ≤ now) with hle | hgt
    · right
      simp only [beq_eq_false_iff_ne, ne_eq]
      intro hty
      exact hkeep ⟨hle, hty⟩
    · left
      simp [hgt]
  · intro w hw
    simp only [add_window, if_pos h] at hw
    exact (List.mem_filter.mp hw).1

/-- Witness for `add_window_invalid_range` at a concrete input. -/
theorem add_window_invalid_range_witness :
    ((2 : Int) ≤ 3) ∧
    ((add_window 10 1 3 2 "" "approved" "rest" none none "w9" [w_expired]).1 =
        .error "end must be after start" ∧
      (add_window 10 1 3 2 "" "approved" "rest" none none "w9" [w_expired]).2 =
        prune_expired 10 [w_expired] ∧
      (∀ w ∈ [w_expired], ¬ (w.stop ≤ 10 ∧ w.session_type = "rest") →
        w ∈ (add_window 10 1 3 2 "" "approved" "rest" none none "w9" [w_expired]).2) ∧
      (∀ w ∈ (add_window 10 1 3 2 "" "approved" "rest" none none "w9" [w_expired]).2,
        w ∈ [w_expired])) :=
  ⟨by decide,
   add_window_invalid_range 10 1 3 2 "" "approved" "rest" none none "w9"
     [w_expired] (by decide)⟩

/-! ### Claim C1: rest-window merge on AddWindow -/

/-- The status/kind part of the merge guard: a window that the merge loop
considers at all (chat matches, status neither cancelled nor rejected,
rest kind). -/
def rest_candidate (chat : Int) (w : RestWindow) : Prop :=
  w.chat_id = chat ∧ w.status ≠ "cancelled" ∧ w.status ≠ "rejected" ∧
    w.session_type = "rest"

instance (chat : Int) (w : RestWindow) : Decidable (rest_candidate chat w) := by
  unfold rest_candidate; infer_instance

theorem mergeable_iff (chat : Int) (s e : Int) (w : RestWindow) :
    mergeable chat s e w ↔ rest_candidate chat w ∧ overlaps_or_touches s e w := by
  unfold mergeable rest_candidate; tauto

/-- Widening the candidate range preserves `overlaps_or_touches`, provided
both ranges are genuine (`start < end`). -/
theorem overlaps_or_touches_extend {s e s1 e1 : Int} {w : RestWindow}
    (hs : s1 ≤ s) (he : e ≤ e1) (hse : s < e) (hw : w.start < w.stop)
    (h : overlaps_or_touches s e w) : overlaps_or_touches s1 e1 w := by
  unfold overlaps_or_touches at h ⊢
  rcases h with h | h | h <;> omega

theorem merge_pass_cons_pos {chat : Int} {s e : Int} {ns : List String}
    {w : RestWindow} {l : RestStore} (hm : mergeable chat s e w) :
    merge_pass chat s e ns (w :: l) =
      { merge_pass chat (min s w.start) (max e w.stop)
          (ns ++ if w.note.strip ≠ "" then [w.note.strip] else []) l with
        merged := w :: (merge_pass chat (min s w.start) (max e w.stop)
          (ns ++ if w.note.strip ≠ "" then [w.note.strip] else []) l).merged } := by
  simp [merge_pass, hm]

theorem merge_pass_cons_neg {chat : Int} {s e : Int} {ns : List String}
    {w : RestWindow} {l : RestStore} (hm : ¬ mergeable chat s e w) :
    merge_pass chat s e ns (w :: l) =
      { merge_pass chat s e ns l with
        kept := w :: (merge_pass chat s e ns l).kept } := by
  simp [merge_pass, hm]

/-- The merge loop only ever widens the range. -/
theorem merge_pass_mono (chat : Int) (l : RestStore) :
    ∀ (s e : Int) (ns : List String),
      (merge_pass chat s e ns l).start ≤ s ∧ e ≤ (merge_pass chat s e ns l).stop := by
  induction l with
  | nil => intro s e ns; simp [merge_pass]
  | cons w rest ih =>
    intro s e ns
    by_cases hm : mergeable chat s e w
    · rw [merge_pass_cons_pos hm]
      have h := ih (min s w.start) (max e w.stop)
        (ns ++ if w.note.strip ≠ "" then [w.note.strip] else [])
      constructor
      · exact le_trans h.1 (min_le_left _ _)
      · exact le_trans (le_max_left _ _) h.2
    · rw [merge_pass_cons_neg hm]
      exact ih s e ns

/-- The store is split by the merge loop into kept and merged windows. -/
theorem merge_pass_perm (chat : Int) (l : RestStore) :
    ∀ (s e : Int) (ns : List String),
      l.Perm ((merge_pass chat s e ns l).kept ++ (merge_pass chat s e ns l).merged) := by
  induction l with
  | nil => intro s e ns; simp [merge_pass]
  | cons w rest ih =>
    intro s e ns
    by_cases hm : mergeable chat s e w
    · rw [merge_pass_cons_pos hm]
      dsimp only
      refine List.Perm.trans (List.Perm.cons w (ih (min s w.start) (max e w.stop)
        (ns ++ if w.note.strip ≠ "" then [w.note.strip] else []))) ?_
      exact List.perm_middle.symm
    · rw [merge_pass_cons_neg hm]
      dsimp only
      exact List.Perm.cons w (ih s e ns)

theorem merge_pass_kept_subset (chat : Int) (l : RestStore) (s e : Int)
    (ns : List String) : ∀ v ∈ (merge_pass chat s e ns l).kept, v ∈ l := by
  intro v hv
  exact (merge_pass_perm chat l s e ns).mem_iff.mpr (List.mem_append.mpr (Or.inl hv))

theorem merge_pass_merged_subset (chat : Int) (l : RestStore) (s e : Int)
    (ns : List String) : ∀ v ∈ (merge_pass chat s e ns l).merged, v ∈ l := by
  intro v hv
  exact (merge_pass_perm chat l s e ns).mem_iff.mpr (List.mem_append.mpr (Or.inr hv))

theorem merge_pass_mem_split (chat : Int) (l : RestStore) (s e : Int)
    (ns : List String) : ∀ v ∈ l,
      v ∈ (merge_pass chat s e ns l).kept ∨ v ∈ (merge_pass chat s e ns l).merged := by
  intro v hv
  exact List.mem_append.mp ((merge_pass_perm chat l s e ns).mem_iff.mp hv)

/-- A candidate window that overlaps or touches the requested range never
survives the merge loop (its range test only gets easier as the range
widens). -/
theorem merge_pass_absorbs (chat : Int) (l : RestStore) :
    ∀ (s e : Int) (ns : List String) (v : RestWindow),
      s < e → v.start < v.stop → rest_candidate chat v →
      overlaps_or_touches s e v → v ∉ (merge_pass chat s e ns l).kept := by
  induction l with
  | nil => intro s e ns v _ _ _ _; simp [merge_pass]
  | cons w rest ih =>
    intro s e ns v hse hv hc hot
    by_cases hm : mergeable chat s e w
    · rw [merge_pass_cons_pos hm]
      have hse1 : min s w.start < max e w.stop :=
        lt_of_le_of_lt (min_le_left _ _) (lt_of_lt_of_le hse (le_max_left _ _))
      exact ih (min s w.start) (max e w.stop) _ v hse1 hv hc
        (overlaps_or_touches_extend (min_le_left _ _) (le_max_left _ _) hse hv hot)
    · rw [merge_pass_cons_neg hm]
      intro hmem
      rcases List.mem_cons.mp hmem with hvw | hvk
      · exact hm (hvw ▸ (mergeable_iff chat s e v).mpr ⟨hc, hot⟩)
      · exact ih s e ns v hse hv hc hot hvk

/-- No kept candidate window covers the final merged span. -/
theorem merge_pass_kept_not_cover (chat : Int) (l : RestStore) :
    ∀ (s e : Int) (ns : List String) (v : RestWindow),
      s < e → rest_candidate chat v → v ∈ (merge_pass chat s e ns l).kept →
      ¬ (v.start ≤ (merge_pass chat s e ns l).start ∧
         (merge_pass chat s e ns l).stop ≤ v.stop) := by
  induction l with
  | nil => intro s e ns v _ _ hv; simp [merge_pass] at hv
  | cons w rest ih =>
    intro s e ns v hse hc hv
    by_cases hm : mergeable chat s e w
    · rw [merge_pass_cons_pos hm] at hv ⊢
      dsimp only at hv ⊢
      have hse1 : min s w.start < max e w.stop :=
        lt_of_le_of_lt (min_le_left _ _) (lt_of_lt_of_le hse (le_max_left _ _))
      exact ih (min s w.start) (max e w.stop) _ v hse1 hc hv
    · rw [merge_pass_cons_neg hm] at hv ⊢
      dsimp only at hv ⊢
      rcases List.mem_cons.mp hv with hvw | hvk
      · subst hvw
        rintro ⟨h1, h2⟩
        have hmono := merge_pass_mono chat rest s e ns
        apply hm
        refine (mergeable_iff chat s e v).mpr ⟨hc, ?_⟩
        unfold overlaps_or_touches
        omega
      · exact ih s e ns v hse hc hvk

theorem foldr_min_pull (L : List Int) (a b : Int) :
    L.foldr min (min a b) = min a (L.foldr min b) := by
  induction L with
  | nil => rfl
  | cons c L ih => simp [List.foldr, ih, min_left_comm]

theorem foldr_max_pull (L : List Int) (a b : Int) :
    L.foldr max (max a b) = max a (L.foldr max b) := by
  induction L with
  | nil => rfl
  | cons c L ih => simp [List.foldr, ih, max_left_comm]

/-- The final range is the min/max over the request and the merged windows. -/
theorem merge_pass_span (chat : Int) (l : RestStore) :
    ∀ (s e : Int) (ns : List String),
      (merge_pass chat s e ns l).start =
        ((merge_pass chat s e ns l).merged.map RestWindow.start).foldr min s ∧
      (merge_pass chat s e ns l).stop =
        ((merge_pass chat s e ns l).merged.map RestWindow.stop).foldr max e := by
  induction l with
  | nil => intro s e ns; simp [merge_pass]
  | cons w rest ih =>
    intro s e ns
    by_cases hm : mergeable chat s e w
    · rw [merge_pass_cons_pos hm]
      have h := ih (min s w.start) (max e w.stop)
        (ns ++ if w.note.strip ≠ "" then [w.note.strip] else [])
      constructor
      · show (merge_pass chat (min s w.start) (max e w.stop) _ rest).start = _
        rw [h.1]
        simp only [List.map_cons, List.foldr_cons]
        rw [min_comm s w.start, foldr_min_pull]
      · show (merge_pass chat (min s w.start) (max e w.stop) _ rest).stop = _
        rw [h.2]
        simp only [List.map_cons, List.foldr_cons]
        rw [max_comm e w.stop, foldr_max_pull]
    · rw [merge_pass_cons_neg hm]
      exact ih s e ns

/-- The collected notes are the initial ones followed by the non-empty
stripped notes of the merged windows, in store order. -/
theorem merge_pass_notes (chat : Int) (l : RestStore) :
    ∀ (s e : Int) (ns : List String),
      (merge_pass chat s e ns l).notes =
        ns ++ ((merge_pass chat s e ns l).merged.map
          (fun v => v.note.strip)).filter (fun t => t ≠ "") := by
  induction l with
  | nil => intro s e ns; simp [merge_pass]
  | cons w rest ih =>
    intro s e ns
    by_cases hm : mergeable chat s e w
    · rw [merge_pass_cons_pos hm]
      show (merge_pass chat (min s w.start) (max e w.stop) _ rest).notes = _
      rw [ih]
      simp only [List.map_cons, List.filter_cons]
      by_cases hnote : w.note.strip = ""
      · simp [hnote]
      · simp [hnote, List.append_assoc]
    · rw [merge_pass_cons_neg hm]
      exact ih s e ns

theorem prune_expired_subset (now : Int) (store : RestStore) :
    ∀ v ∈ prune_expired now store, v ∈ store :=
  fun _ hv => (List.mem_filter.mp hv).1


/-- The window record that `add_window` inserts on the `kind=rest` path with
`status="approved"`, given the merge-loop result; named so the theorems
below can refer to it compactly. -/
def inserted_window (now chat : Int) (r : MergeResult)
    (tid tname : Option String) (newId : String) : RestWindow :=
  { id := newId, chat_id := chat, start := r.start, stop := r.stop,
    status := "approved",
    note := if r.notes = [] then ""
      else String.intercalate "；" (dedupFirst r.notes),
    created_at := now, session_type := "rest",
    task_id := tid, task_name := tname }

theorem add_window_rest_eq (now chat s e : Int) (note : String)
    (tid tname : Option String) (newId : String) (store : RestStore)
    (hne : ¬ e ≤ s) :
    add_window now chat s e note "approved" "rest" tid tname newId store =
      (Except.ok (inserted_window now chat
          (merge_pass chat s e (if note.strip ≠ "" then [note.strip] else [])
            (prune_expired now store)) tid tname newId),
        (merge_pass chat s e (if note.strip ≠ "" then [note.strip] else [])
          (prune_expired now store)).kept ++
        [inserted_window now chat
          (merge_pass chat s e (if note.strip ≠ "" then [note.strip] else [])
            (prune_expired now store)) tid tname newId]) := by
  simp [add_window, inserted_window, hne]

/-- C1 (amended): for a valid range, `AddWindow(kind=rest)` merges, among the
windows surviving the expiry sweep, with every rest window of the chat whose
status is neither cancelled nor rejected that overlaps or touches the
requested range (the loop may also absorb windows only reached through the
widened range); the inserted window spans the min/max over the request and
all merged windows, carries the concatenation of the de-duplicated non-empty
notes, is the only surviving candidate covering that span, and every
merged-away window is removed from the store. -/
theorem add_window_rest_merge (now chat s e : Int) (note : String)
    (tid tname : Option String) (newId : String) (store : RestStore)
    (hse : s < e)
    (hwf : ∀ v ∈ store, v.start < v.stop)
    (hids : (store.map RestWindow.id).Nodup)
    (hfresh : newId ∉ store.map RestWindow.id) :
    let p := prune_expired now store
    let r := merge_pass chat s e (if note.strip ≠ "" then [note.strip] else []) p
    let res := add_window now chat s e note "approved" "rest" tid tname newId store
    ∃ w, res.1 = Except.ok w ∧ res.2 = r.kept ++ [w] ∧ w.id = newId ∧
      w.chat_id = chat ∧ w.status = "approved" ∧ w.session_type = "rest" ∧
      (∀ v ∈ p, rest_candidate chat v → overlaps_or_touches s e v →
        v ∈ r.merged ∧ v ∉ res.2) ∧
      w.start = (r.merged.map RestWindow.start).foldr min s ∧
      w.stop = (r.merged.map RestWindow.stop).foldr max e ∧
      w.note = String.intercalate "；" (dedupFirst
        ((if note.strip ≠ "" then [note.strip] else []) ++
          ((r.merged.map (fun v => v.note.strip)).filter (fun t => t ≠ "")))) ∧
      w ∈ res.2 ∧ w.start ≤ s ∧ e ≤ w.stop ∧
      (∀ v ∈ res.2, v ≠ w → rest_candidate chat v →
        ¬ (v.start ≤ w.start ∧ w.stop ≤ v.stop)) ∧
      (∀ v ∈ r.merged, v ∉ res.2) := by
  dsimp only
  have hne : ¬ e ≤ s := not_le.mpr hse
  have heq := add_window_rest_eq now chat s e note tid tname newId store hne
  set p := prune_expired now store with hp
  set r := merge_pass chat s e (if note.strip ≠ "" then [note.strip] else []) p with hr
  set w := inserted_window now chat r tid tname newId with hw
  have hres2 : (add_window now chat s e note "approved" "rest" tid tname newId store).2 =
      r.kept ++ [w] := by rw [heq]
  have hwid : w.id = newId := rfl
  have hid_fresh : ∀ v ∈ p, v ≠ w := by
    intro v hv hvw
    apply hfresh
    have : v.id = newId := by rw [hvw, hwid]
    rw [← this]
    exact List.mem_map_of_mem RestWindow.id (prune_expired_subset now store v hv)
  have hnodup : p.Nodup := (List.Nodup.of_map RestWindow.id hids).filter _
  have hperm := merge_pass_perm chat p s e (if note.strip ≠ "" then [note.strip] else [])
  have hdisj := (List.nodup_append.mp (hperm.nodup hnodup)).2.2
  refine ⟨w, by rw [heq], hres2, hwid, rfl, rfl, rfl, ?_, ?_, ?_, ?_, ?_, ?_, ?_, ?_, ?_⟩
  · -- every surviving candidate touching the request is merged and removed
    intro v hv hc hot
    have hwfv : v.start < v.stop := hwf v (prune_expired_subset now store v hv)
    have hnk : v ∉ r.kept := merge_pass_absorbs chat p s e _ v hse hwfv hc hot
    have hmg := (merge_pass_mem_split chat p s e
      (if note.strip ≠ "" then [note.strip] else []) v hv).resolve_left hnk
    refine ⟨hmg, ?_⟩
    rw [hres2]
    intro hmem
    rcases List.mem_append.mp hmem with h | h
    · exact hnk h
    · exact hid_fresh v hv (List.mem_singleton.mp h)
  · exact (merge_pass_span chat p s e _).1
  · exact (merge_pass_span chat p s e _).2
  · -- the combined note
    show (if r.notes = [] then ""
      else String.intercalate "；" (dedupFirst r.notes)) = _
    have hnotes := merge_pass_notes chat p s e (if note.strip ≠ "" then [note.strip] else [])
    by_cases hempty : r.notes = []
    · rw [if_pos hempty]
      rw [hempty] at hnotes
      rw [← hnotes]
      rfl
    · rw [if_neg hempty]
      rw [← hnotes]
  · rw [hres2]
    exact List.mem_append_right _ (List.mem_singleton_self w)
  · exact (merge_pass_mono chat p s e _).1
  · exact (merge_pass_mono chat p s e _).2
  · -- uniqueness of the covering window among surviving candidates
    intro v hv hvne hc
    rw [hres2] at hv
    rcases List.mem_append.mp hv with h | h
    · exact merge_pass_kept_not_cover chat p s e _ v hse hc h
    · exact absurd (List.mem_singleton.mp h) hvne
  · -- merged windows are gone from the result
    intro v hvm
    have hvp := merge_pass_merged_subset chat p s e
      (if note.strip ≠ "" then [note.strip] else []) v hvm
    have hnk : v ∉ r.kept := fun hk => hdisj hk hvm
    rw [hres2]
    intro hmem
    rcases List.mem_append.mp hmem with h | h
    · exact hnk h
    · exact hid_fresh v hvp (List.mem_singleton.mp h)

/-- A rejected (hence non-cancelled) rest window used to refute the claim's
"non-cancelled" merge filter. -/
def w_rejected : RestWindow :=
  { id := "w0", chat_id := 1, start := 10, stop := 20, status := "rejected",
    note := "", created_at := 0, session_type := "rest",
    task_id := none, task_name := none }

/-- The window the counterexample call inserts. -/
def w_c1new : RestWindow :=
  { id := "w1", chat_id := 1, start := 15, stop := 25, status := "approved",
    note := "", created_at := 0, session_type := "rest",
    task_id := none, task_name := none }

/-- C1 (counterexample): `w_rejected` is a non-cancelled rest window of the
chat that overlaps the new range `[15,25]`, yet `AddWindow` neither merges
nor removes it — the post-call store still contains it next to the new
window, so the claim's "merges with every non-cancelled rest window that
overlaps or touches" is false as stated (the code also skips status
`rejected`). -/
theorem add_window_merge_claim_counterexample :
    w_rejected.status ≠ "cancelled" ∧ w_rejected.session_type = "rest" ∧
    w_rejected.chat_id = 1 ∧ overlaps_or_touches 15 25 w_rejected ∧
    (add_window 0 1 15 25 "" "approved" "rest" none none "w1" [w_rejected]).2 =
      [w_rejected, w_c1new] := by
  decide

/-- The pre-existing window of the witness below (it touches the request at
its end boundary). -/
def w_c1a : RestWindow :=
  { id := "wa", chat_id := 1, start := 0, stop := 10, status := "approved",
    note := "rest note", created_at := 0, session_type := "rest",
    task_id := none, task_name := none }

/-- Witness for `add_window_rest_merge` at a concrete input. -/
theorem add_window_rest_merge_witness :
    ((10 : Int) < 20 ∧ (∀ v ∈ [w_c1a], v.start < v.stop) ∧
      (([w_c1a].map RestWindow.id).Nodup) ∧
      "wb" ∉ [w_c1a].map RestWindow.id) ∧
    (let p := prune_expired 0 [w_c1a]
     let r := merge_pass 1 10 20 (if "hi".strip ≠ "" then ["hi".strip] else []) p
     let res := add_window 0 1 10 20 "hi" "approved" "rest" none none "wb" [w_c1a]
     ∃ w, res.1 = Except.ok w ∧ res.2 = r.kept ++ [w] ∧ w.id = "wb" ∧
       w.chat_id = 1 ∧ w.status = "approved" ∧ w.session_type = "rest" ∧
       (∀ v ∈ p, rest_candidate 1 v → overlaps_or_touches 10 20 v →
         v ∈ r.merged ∧ v ∉ res.2) ∧
       w.start = (r.merged.map RestWindow.start).foldr min 10 ∧
       w.stop = (r.merged.map RestWindow.stop).foldr max 20 ∧
       w.note = String.intercalate "；" (dedupFirst
         ((if "hi".strip ≠ "" then ["hi".strip] else []) ++
           ((r.merged.map (fun v => v.note.strip)).filter (fun t => t ≠ "")))) ∧
       w ∈ res.2 ∧ w.start ≤ 10 ∧ 20 ≤ w.stop ∧
       (∀ v ∈ res.2, v ≠ w → rest_candidate 1 v →
         ¬ (v.start ≤ w.start ∧ w.stop ≤ v.stop)) ∧
       (∀ v ∈ r.merged, v ∉ res.2)) :=
  ⟨⟨by decide, by decide, by decide, by decide⟩,
   add_window_rest_merge 0 1 10 20 "hi" none none "wb" [w_c1a]
     (by decide) (by decide) (by decide) (by decide)⟩

/-! ### User state (`user_state.py`) -/

/-- Python `str.lower()` (ASCII case folding, which is all the code relies
on). -/
def String.lower (s : String) : String := ⟨s.data.map Char.toLower⟩

/-- Python `needle in hay` on strings (substring containment). -/
def str_contains (hay needle : String) : Bool :=
  go hay.data
where
  go : List Char → Bool
    | [] => needle.data.isPrefixOf []
    | c :: rest => needle.data.isPrefixOf (c :: rest) || go rest

/-- `task.id.replace("-", "")` as used to build the fallback Notion URL. -/
def strip_dashes (s : String) : String := ⟨s.data.filter (fun c => c != '-')⟩

/-- Truthiness of Python `Optional[bool]`. -/
def optTruthy : Option Bool → Bool
  | some b => b
  | none => false

/-- Truthiness of Python `Optional[str]`. -/
def strTruthy : Option String → Bool
  | some a => a != ""
  | none => false

/-- `user_state.py` `UserState` (field defaults as in the dataclass). -/
structure UserState where
  action : String := "unknown"
  mental : String := "unknown"
  action_updated_at : Option Int := none
  mental_updated_at : Option Int := none
  action_prompted_at : Option Int := none
  mental_prompted_at : Option Int := none
  deriving Repr, DecidableEq

/-- The persisted `UserStateService._states` map. -/
abbrev UserStore := List (Int × UserState)

/-- Python dict assignment `d[k] = v` for an `int`-keyed dict: update in
place if the key exists, append otherwise. -/
def assocSet {β : Type} : List (Int × β) → Int → β → List (Int × β)
  | [], k, v => [(k, v)]
  | p :: st, k, v => if p.1 == k then (k, v) :: st else p :: assocSet st k v

/-- `self._states[chat] = state`. -/
def setUser (store : UserStore) (chat : Int) (st : UserState) : UserStore :=
  assocSet store chat st

/-- `UserStateService._normalize_action`: returns the normalized state and
whether it changed (the service persists on change). -/
def normalize_action (now : Int) (state : UserState)
    (has_active_tracker is_resting : Option Bool) : UserState × Bool :=
  if optTruthy is_resting then
    if state.action ≠ "休息中" then
      ({ state with action := "休息中", action_updated_at := some now,
                    action_prompted_at := none }, true)
    else (state, false)
  else
    if state.action = "休息中" then
      if optTruthy has_active_tracker then
        ({ state with action := "推进中", action_updated_at := some now,
                      action_prompted_at := none }, true)
      else
        ({ state with action := "unknown", action_updated_at := some now,
                      action_prompted_at := none }, true)
    else if state.action = "推进中" ∧ ¬ optTruthy has_active_tracker then
      ({ state with action := "unknown", action_updated_at := none,
                    action_prompted_at := none }, true)
    else if optTruthy has_active_tracker ∧ state.action = "unknown" then
      ({ state with action := "推进中", action_updated_at := some now,
                    action_prompted_at := none }, true)
    else (state, false)

/-- `UserStateService.get_state`: read (with default), normalizing — and
persisting the normalization — when tracker/rest status is supplied. -/
def get_state (now : Int) (chat : Int) (has_active_tracker is_resting : Option Bool)
    (store : UserStore) : UserState × UserStore :=
  let raw := (store.lookup chat).getD {}
  if has_active_tracker.isSome ∨ is_resting.isSome then
    let n := normalize_action now raw has_active_tracker is_resting
    (n.1, if n.2 then setUser store chat n.1 else store)
  else (raw, store)

/-- `UserStateService.update_state`. -/
def update_state (now : Int) (chat : Int) (action mental : Option String)
    (has_active_tracker is_resting : Option Bool) (store : UserStore) :
    UserState × UserStore :=
  let gs := get_state now chat has_active_tracker is_resting store
  let st1 :=
    if strTruthy action then
      { gs.1 with
          action := if optTruthy is_resting then "休息中" else action.getD "",
          action_updated_at := some now, action_prompted_at := none }
    else gs.1
  let st2 :=
    if strTruthy mental then
      { st1 with mental := mental.getD "", mental_updated_at := some now,
                 mental_prompted_at := none }
    else st1
  let changed := strTruthy action || strTruthy mental
  let step :=
    if has_active_tracker.isSome ∨ is_resting.isSome then
      let n := normalize_action now st2 has_active_tracker is_resting
      (n.1, if n.2 then setUser gs.2 chat n.1 else gs.2)
    else (st2, gs.2)
  (step.1, if changed then setUser step.2 chat step.1 else step.2)

/-! ### Reminder tracker (`tracker.py`) -/

/-- The slice of `core.domain.Task` the tracker consumes (spec section 6):
identifier, display name, page url (empty string when absent, matching
Python falsiness). -/
structure TaskInfo where
  id : String
  name : String
  page_url : String
  deriving Repr, DecidableEq

/-- `tracker.py` `escape_md` with `MD_SPECIAL_CHARS = "\\[]"`. -/
def escape_md (s : String) : String :=
  ⟨s.data.foldr
    (fun c acc =>
      if c = '\\' ∨ c = '[' ∨ c = ']' then '\\' :: c :: acc else c :: acc)
    []⟩

/-- `tracker.py` `TrackerEntry` (dataclass defaults kept). -/
structure TrackerEntry where
  task_id : String
  task_name : String
  task_url : String
  timer : Option PyTimer
  waiting : Bool := false
  start_time : Int
  interval_seconds : Int := 1500
  context : String := "task"
  metadata : List (String × String) := []
  next_fire_at : Int
  rest_resume_at : Option Int := none
  deriving Repr, DecidableEq

/-- One chat's `Dict[str, TrackerEntry]`. -/
abbrev EntryMap := List (String × TrackerEntry)

/-- `TaskTracker._entries : Dict[int, Dict[str, TrackerEntry]]`. -/
abbrev TrackerState := List (Int × EntryMap)

/-- In-place update of the entry stored under a key. -/
def mapUpdate : EntryMap → String → TrackerEntry → EntryMap
  | [], _, _ => []
  | p :: m, k, v => if p.1 == k then (k, v) :: m else p :: mapUpdate m k v

/-- Dict assignment for the per-chat map. -/
def tsSet (st : TrackerState) (chat : Int) (m : EntryMap) : TrackerState :=
  assocSet st chat m

/-- `self._entries.pop(chat_id, None)`. -/
def tsErase (st : TrackerState) (chat : Int) : TrackerState :=
  st.filter (fun p => p.1 != chat)

/-- The entry currently tracked for `(chat, task)`. -/
def tracked_entry? (st : TrackerState) (chat : Int) (tid : String) :
    Option TrackerEntry :=
  (st.lookup chat).bind (fun em => em.lookup tid)

/-- Lines 89-92 of `start_tracking`: a truthy `interval_minutes` is clamped
to at least 5 minutes and converted to seconds, otherwise the registry's
initial interval applies (`custom_interval or self._initial_interval`). -/
def effective_interval (initial : Int) (interval_minutes : Option Int) : Int :=
  match interval_minutes with
  | some m => if m ≠ 0 then max 5 m * 60 else initial
  | none => initial

/-- `TaskTracker._sync_action_state` (the bot wires a user-state service, so
the `self._user_state` guard is always taken). -/
def sync_action_state (now : Int) (rest : RestStore) (users : UserStore)
    (chat : Int) (action : String) (has_tracker : Bool) : UserStore :=
  let ir := is_resting now chat (some now) rest
  let tb := has_active_task_block now chat (some now) rest
  if action = "推进中" ∧ ¬ tb then users
  else (update_state now chat (some action) none (some has_tracker) (some ir) users).2

/-- Lines 93-102 of `start_tracking`: the initial delay and the recorded
`rest_resume_at`, deferring the first fire to the rest resume time when the
default due instant would land inside the rest. -/
def start_delay_resume (interval now : Int) (rest : RestStore) (chat : Int) :
    Int × Option Int :=
  if is_resting now chat (some now) rest then
    match next_resume_time now chat (some now) rest with
    | some resume =>
      if now + interval ≤ resume then (max 1 (resume - now), some resume)
      else (interval, some resume)
    | none => (interval, none)
  else (interval, none)

/-- `TaskTracker.start_tracking`. Returns the tracker state, the user-state
store (touched when `update_action_state`), and the sent messages. -/
def start_tracking (initial_interval : Int) (now : Int) (rest : RestStore)
    (chat : Int) (task : TaskInfo) (interval_minutes : Option Int)
    (update_action_state : Bool) (notify_user : Bool) (context : String)
    (metadata : List (String × String)) (st : TrackerState)
    (users : UserStore) : TrackerState × UserStore × List Msg :=
  let interval := effective_interval initial_interval interval_minutes
  let dr := start_delay_resume interval now rest chat
  let em := (st.lookup chat).getD []
  let em1 := em.filter (fun p => p.1 != task.id)
  let entry : TrackerEntry :=
    { task_id := task.id, task_name := task.name,
      task_url := if task.page_url = "" then
          "https://www.notion.so/" ++ strip_dashes task.id
        else task.page_url,
      timer := some { delay := dr.1, started := true },
      waiting := false, start_time := now, interval_seconds := interval,
      context := context, metadata := metadata,
      next_fire_at := now + dr.1, rest_resume_at := dr.2 }
  let st1 := tsSet st chat (em1 ++ [(task.id, entry)])
  let msgs : List Msg :=
    if notify_user then
      [{ chat_id := chat,
         text := "已开始跟踪 " ++ escape_md task.name ++ "，" ++
           toString (interval / 60) ++ " 分钟后将再次询问。" }]
    else []
  let users1 :=
    if update_action_state then sync_action_state now rest users chat "推进中" true
    else users
  (st1, users1, msgs)

/-- `TaskTracker._send_reminder` (the timer callback). -/
def send_reminder (follow_up : Int) (now : Int) (rest : RestStore)
    (chat : Int) (task_id : String) (st : TrackerState) :
    TrackerState × List Msg :=
  match st.lookup chat with
  | none => (st, [])
  | some em =>
    match em.lookup task_id with
    | none => (st, [])
    | some entry =>
      if is_resting now chat (some now) rest then
        let resume := next_resume_time now chat (some now) rest
        let delay :=
          match resume with
          | some r => r - now
          | none => follow_up
        let entry1 := { entry with
                        timer := some { delay := delay, started := true },
                        start_time := now, waiting := false,
                        next_fire_at := now + delay, rest_resume_at := resume }
        (tsSet st chat (mapUpdate em task_id entry1), [])
      else
        let entry1 :=
          if follow_up > 0 then
            { entry with waiting := true, start_time := now,
                         timer := some { delay := follow_up, started := true },
                         next_fire_at := now + follow_up, rest_resume_at := none }
          else
            { entry with waiting := true, start_time := now,
                         next_fire_at := now }
        (tsSet st chat (mapUpdate em task_id entry1),
         [{ chat_id := chat,
            text := "⏰ 时间到。请汇报任务 [" ++ escape_md entry.task_name ++
              "](" ++ entry.task_url ++ ") 的进展，并说明下一步。" }])

/-- `TaskTracker.request_feedback`. -/
def request_feedback (follow_up : Int) (now : Int) (chat : Int)
    (task : TaskInfo) (prompt : String) (context : String)
    (metadata : List (String × String)) (st : TrackerState) :
    TrackerState × List Msg :=
  let em := (st.lookup chat).getD []
  let em1 := em.filter (fun p => p.1 != task.id)
  let entry0 : TrackerEntry :=
    { task_id := task.id, task_name := task.name,
      task_url := if task.page_url = "" then
          "https://www.notion.so/" ++ strip_dashes task.id
        else task.page_url,
      timer := none, waiting := true, start_time := now,
      interval_seconds := follow_up, context := context, metadata := metadata,
      next_fire_at := now + follow_up, rest_resume_at := none }
  let entry :=
    if follow_up > 0 then
      { entry0 with timer := some { delay := follow_up, started := true } }
    else entry0
  (tsSet st chat (em1 ++ [(task.id, entry)]), [{ chat_id := chat, text := prompt }])

/-- `TaskTracker.stop_tracking` (hint resolution: exact id case-insensitively,
then substring of the display name; without a hint only a singleton map). -/
def stop_tracking (now : Int) (rest : RestStore) (chat : Int)
    (task_hint : Option String) (st : TrackerState) (users : UserStore) :
    TrackerState × UserStore × Option TrackerEntry :=
  match st.lookup chat with
  | none => (st, users, none)
  | some em =>
    let target : Option String :=
      match task_hint with
      | some hint =>
        let lowered := hint.lower
        match em.find? (fun p => p.1.lower == lowered) with
        | some p => some p.1
        | none =>
          match em.find? (fun p => str_contains p.2.task_name.lower lowered) with
          | some p => some p.1
          | none => none
      | none => if em.length == 1 then em.head?.map (fun p => p.1) else none
    match target with
    | none => (st, users, none)
    | some tid =>
      match em.lookup tid with
      | none => (st, users, none)
      | some entry =>
        let em1 := em.filter (fun p => p.1 != tid)
        let st1 := if em1.isEmpty then tsErase st chat else tsSet st chat em1
        let users1 :=
          if em1.isEmpty then sync_action_state now rest users chat "unknown" false
          else users
        (st1, users1, some entry)

/-- The body of the `for task_id, entry in entry_map.items()` loop of
`defer_for_rest` (the common `delay = max(1.0, end - now)` is a parameter):
skip timerless entries; default `rest_resume_at` to `end`; leave entries
firing after `end` alone (clearing `rest_resume_at`); otherwise cancel and
re-arm at `end`. -/
def defer_entry (now e delay : Int) (p : String × TrackerEntry) :
    String × TrackerEntry :=
  match p.2.timer with
  | none => p
  | some _ =>
    let en :=
      if p.2.rest_resume_at = none then
        { p.2 with rest_resume_at := some e }
      else p.2
    if e < en.next_fire_at then (p.1, { en with rest_resume_at := none })
    else
      (p.1, { en with
        timer := some { delay := delay, started := true },
        waiting := false, start_time := now,
        next_fire_at := now + delay, rest_resume_at := some e })

/-- `TaskTracker.defer_for_rest`. -/
def defer_for_rest (now : Int) (chat : Int) (s e : Int) (st : TrackerState) :
    TrackerState :=
  match st.lookup chat with
  | none => st
  | some em =>
    if ¬ (s ≤ now ∧ now < e) then st
    else tsSet st chat (em.map (defer_entry now e (max 1 (e - now))))

def insertByStartTime (e : TrackerEntry) :
    List TrackerEntry → List TrackerEntry
  | [] => [e]
  | x :: xs =>
    if e.start_time ≤ x.start_time then e :: x :: xs
    else x :: insertByStartTime e xs

def sortByStartTime : List TrackerEntry → List TrackerEntry
  | [] => []
  | x :: xs => insertByStartTime x (sortByStartTime xs)

/-- `TaskTracker.list_active`. -/
def list_active (chat : Int) (st : TrackerState) : List TrackerEntry :=
  sortByStartTime (((st.lookup chat).getD []).map (fun p => p.2))

/-! ### Association-list and minimum lemmas -/

theorem minTime?_mem : ∀ {L : List Int} {m : Int}, minTime? L = some m → m ∈ L
  | [], m, h => by simp [minTime?] at h
  | t :: ts, m, h => by
    simp only [minTime?] at h
    cases hts : minTime? ts with
    | none =>
      rw [hts] at h
      simp only [Option.some.injEq] at h
      exact h ▸ List.mem_cons_self t ts
    | some m2 =>
      rw [hts] at h
      simp only [Option.some.injEq] at h
      rcases min_choice t m2 with hc | hc
      · rw [← h, hc]; exact List.mem_cons_self t ts
      · rw [← h, hc]; exact List.mem_cons_of_mem t (minTime?_mem hts)

theorem minTime?_cons (t : Int) (ts : List Int) :
    ∃ m, minTime? (t :: ts) = some m := by
  simp only [minTime?]
  cases minTime? ts <;> exact ⟨_, rfl⟩

/-- While a chat is resting there is always a next resume time, and it is
strictly in the future (the expiry sweep has already removed rest windows
whose end has passed). -/
theorem is_resting_next_resume (now chat : Int) (store : RestStore)
    (h : is_resting now chat (some now) store = true) :
    ∃ r, next_resume_time now chat (some now) store = some r ∧ now < r := by
  unfold is_resting current_window at h
  rw [Option.isSome_iff_exists] at h
  obtain ⟨w, hw⟩ := h
  have hmem := List.mem_of_find?_eq_some hw
  have hpred := List.find?_some hw
  simp only [Option.getD_some, Bool.and_eq_true, beq_iff_eq,
    decide_eq_true_eq] at hpred
  obtain ⟨⟨⟨⟨hchat, happ⟩, hty⟩, _hstart⟩, _hstop⟩ := hpred
  have hkeep := (List.mem_filter.mp hmem).2
  rw [hty] at hkeep
  simp only [Bool.not_eq_true', Bool.and_eq_false_iff, decide_eq_false_iff_not,
    not_le] at hkeep
  have hfut : now < w.stop := by
    rcases hkeep with hk | hk
    · exact hk
    · simp at hk
  have hwin : w ∈ (prune_expired now store).filter (fun v =>
      v.chat_id == chat && v.status == "approved" &&
      v.session_type == "rest" && decide (now < v.stop)) := by
    refine List.mem_filter.mpr ⟨hmem, ?_⟩
    simp [hchat, happ, hty, hfut]
  have hstop_mem : w.stop ∈ ((prune_expired now store).filter (fun v =>
      v.chat_id == chat && v.status == "approved" &&
      v.session_type == "rest" && decide (now < v.stop))).map
        (fun v => v.stop) :=
    List.mem_map_of_mem _ hwin
  obtain ⟨L, hL⟩ : ∃ L, ((prune_expired now store).filter (fun v =>
      v.chat_id == chat && v.status == "approved" &&
      v.session_type == "rest" && decide (now < v.stop))).map
        (fun v => v.stop) = L := ⟨_, rfl⟩
  rw [hL] at hstop_mem
  cases L with
  | nil => simp at hstop_mem
  | cons t ts =>
    obtain ⟨m, hm⟩ := minTime?_cons t ts
    refine ⟨m, ?_, ?_⟩
    · unfold next_resume_time
      simp only [Option.getD_some]
      rw [hL, hm]
    · have hmmem : m ∈ t :: ts := minTime?_mem hm
      rw [← hL] at hmmem
      obtain ⟨v, hvmem, hveq⟩ := List.mem_map.mp hmmem
      have := (List.mem_filter.mp hvmem).2
      simp only [Bool.and_eq_true, decide_eq_true_eq] at this
      rw [← hveq]
      exact this.2

theorem assocSet_lookup_self {β : Type} (k : Int) (v : β) :
    ∀ store : List (Int × β), (assocSet store k v).lookup k = some v := by
  intro store
  induction store with
  | nil => simp [assocSet, List.lookup]
  | cons p st ih =>
    cases hp : p.1 == k with
    | true =>
      simp [assocSet, hp, List.lookup]
    | false =>
      have hk : (k == p.1) = false := by
        simp only [beq_eq_false_iff_ne] at hp ⊢
        exact fun hkk => hp hkk.symm
      simp [assocSet, hp, List.lookup, hk, ih]

theorem assocSet_lookup_other {β : Type} (k k2 : Int) (v : β) (h : k2 ≠ k) :
    ∀ store : List (Int × β),
      (assocSet store k v).lookup k2 = store.lookup k2 := by
  intro store
  have hk : (k2 == k) = false := beq_eq_false_iff_ne.mpr h
  induction store with
  | nil => simp [assocSet, List.lookup, hk]
  | cons p st ih =>
    cases hp : p.1 == k with
    | true =>
      have hpk : p.1 = k := beq_iff_eq.mp hp
      have h2 : (k2 == p.1) = false := by
        rw [hpk]; exact hk
      simp [assocSet, hp, List.lookup, hk, h2]
    | false =>
      cases h2 : k2 == p.1 with
      | true => simp [assocSet, hp, List.lookup, h2]
      | false => simp [assocSet, hp, List.lookup, h2, ih]

theorem mapUpdate_lookup_self (k : String) (v en : TrackerEntry) :
    ∀ m : EntryMap, m.lookup k = some en →
      (mapUpdate m k v).lookup k = some v := by
  intro m
  induction m with
  | nil => intro h; simp [List.lookup] at h
  | cons p m ih =>
    intro h
    cases hp : p.1 == k with
    | true =>
      have hk : (k == p.1) = true := by
        simp only [beq_iff_eq] at hp ⊢
        exact hp.symm
      simp [mapUpdate, hp, List.lookup, hk]
    | false =>
      have hk : (k == p.1) = false := by
        simp only [beq_eq_false_iff_ne] at hp ⊢
        exact fun hkk => hp hkk.symm
      simp only [List.lookup, hk] at h
      simp [mapUpdate, hp, List.lookup, hk, ih h]

theorem lookup_append_filtered (tid : String) (en : TrackerEntry) :
    ∀ em : EntryMap,
      ((em.filter (fun p => p.1 != tid)) ++ [(tid, en)]).lookup tid = some en := by
  intro em
  induction em with
  | nil => simp [List.lookup]
  | cons p em ih =>
    cases hp : p.1 == tid with
    | true =>
      simp only [List.filter_cons, bne, hp, Bool.not_true, if_neg
        (by simp : ¬ (false = true))]
      exact ih
    | false =>
      have hk : (tid == p.1) = false := by
        simp only [beq_eq_false_iff_ne] at hp ⊢
        exact fun hkk => hp hkk.symm
      simp only [List.filter_cons, bne, hp, Bool.not_false,
        if_pos rfl, List.cons_append, List.lookup, hk]
      exact ih

/-! ### Claims C10 and C3: StartTracking interval and rest deferral -/

/-- `start_tracking` installs exactly one entry for `(chat, task)`, whose
interval, first-fire time and rest annotation come from
`effective_interval` and `start_delay_resume`. -/
theorem start_tracking_tracked (initial now : Int) (rest : RestStore)
    (chat : Int) (task : TaskInfo) (im : Option Int) (uas nu : Bool)
    (ctx : String) (md : List (String × String)) (st : TrackerState)
    (users : UserStore) :
    ∃ en, tracked_entry?
        (start_tracking initial now rest chat task im uas nu ctx md st users).1
        chat task.id = some en ∧
      en.interval_seconds = effective_interval initial im ∧
      en.waiting = false ∧
      en.next_fire_at = now +
        (start_delay_resume (effective_interval initial im) now rest chat).1 ∧
      en.rest_resume_at =
        (start_delay_resume (effective_interval initial im) now rest chat).2 := by
  have hlk : tracked_entry?
      (start_tracking initial now rest chat task im uas nu ctx md st users).1
      chat task.id = some
        { task_id := task.id, task_name := task.name,
          task_url := if task.page_url = "" then
              "https://www.notion.so/" ++ strip_dashes task.id
            else task.page_url,
          timer := some
            ⟨(start_delay_resume (effective_interval initial im) now rest chat).1,
              true⟩,
          waiting := false, start_time := now,
          interval_seconds := effective_interval initial im,
          context := ctx, metadata := md,
          next_fire_at := now +
            (start_delay_resume (effective_interval initial im) now rest chat).1,
          rest_resume_at :=
            (start_delay_resume (effective_interval initial im) now rest chat).2 } := by
    unfold start_tracking tracked_entry? tsSet
    rw [assocSet_lookup_self]
    simp only [Option.some_bind]
    exact lookup_append_filtered task.id _ _
  exact ⟨_, hlk, rfl, rfl, rfl, rfl⟩

/-- C10: a supplied positive `interval_minutes` is floored at 5 minutes
(armed interval `max 5 m * 60` seconds); a supplied 0 falls back to the
default initial interval, exactly like no custom interval. -/
theorem start_tracking_interval_floor (initial now : Int) (rest : RestStore)
    (chat : Int) (task : TaskInfo) (uas nu : Bool) (ctx : String)
    (md : List (String × String)) (st : TrackerState) (users : UserStore)
    (m : Int) (hm : 0 < m) :
    (∃ en, tracked_entry?
        (start_tracking initial now rest chat task (some m) uas nu ctx md st users).1
        chat task.id = some en ∧ en.interval_seconds = max 5 m * 60) ∧
    (∃ en, tracked_entry?
        (start_tracking initial now rest chat task (some 0) uas nu ctx md st users).1
        chat task.id = some en ∧ en.interval_seconds = initial) ∧
    (∃ en, tracked_entry?
        (start_tracking initial now rest chat task none uas nu ctx md st users).1
        chat task.id = some en ∧ en.interval_seconds = initial) := by
  obtain ⟨e1, h1, hi1, _, _, _⟩ :=
    start_tracking_tracked initial now rest chat task (some m) uas nu ctx md st users
  obtain ⟨e2, h2, hi2, _, _, _⟩ :=
    start_tracking_tracked initial now rest chat task (some 0) uas nu ctx md st users
  obtain ⟨e3, h3, hi3, _, _, _⟩ :=
    start_tracking_tracked initial now rest chat task none uas nu ctx md st users
  refine ⟨⟨e1, h1, ?_⟩, ⟨e2, h2, ?_⟩, ⟨e3, h3, ?_⟩⟩
  · rw [hi1]; dsimp only [effective_interval]; rw [if_pos hm.ne']
  · rw [hi2]; dsimp only [effective_interval]; simp
  · rw [hi3]; rfl

/-- Witness for `start_tracking_interval_floor`. -/
theorem start_tracking_interval_floor_witness :
    ((0 : Int) < 7) ∧
    ((∃ en, tracked_entry?
        (start_tracking 1500 0 [] 1 ⟨"t", "T", "u"⟩ (some 7) false false
          "task" [] [] []).1 1 "t" = some en ∧
        en.interval_seconds = max 5 7 * 60) ∧
     (∃ en, tracked_entry?
        (start_tracking 1500 0 [] 1 ⟨"t", "T", "u"⟩ (some 0) false false
          "task" [] [] []).1 1 "t" = some en ∧
        en.interval_seconds = 1500) ∧
     (∃ en, tracked_entry?
        (start_tracking 1500 0 [] 1 ⟨"t", "T", "u"⟩ none false false
          "task" [] [] []).1 1 "t" = some en ∧
        en.interval_seconds = 1500)) :=
  ⟨by decide,
   start_tracking_interval_floor 1500 0 [] 1 ⟨"t", "T", "u"⟩ false false
     "task" [] [] [] 7 (by decide)⟩

/-- The approved rest window of the C3 scenarios: the chat rests until
t=1000 while the default interval is 1500s. -/
def w_rest_c3 : RestWindow :=
  { id := "r3", chat_id := 1, start := -10, stop := 1000, status := "approved",
    note := "", created_at := 0, session_type := "rest",
    task_id := none, task_name := none }

/-- C3 (counterexample): here the resume time (1000) is strictly earlier
than the instant the default interval would fire (1500), so the claim says
the first fire is deferred to 1000 — but the code leaves the default delay,
arming the first fire at 1500. -/
theorem start_tracking_defer_claim_counterexample :
    is_resting 0 1 (some 0) [w_rest_c3] = true ∧
    next_resume_time 0 1 (some 0) [w_rest_c3] = some 1000 ∧
    ((1000 : Int) < 0 + 1500) ∧
    (tracked_entry? (start_tracking 1500 0 [w_rest_c3] 1 ⟨"t", "T", "u"⟩ none
        false false "task" [] [] []).1 1 "t").map
      (fun en => en.next_fire_at) = some 1500 ∧
    ((1500 : Int) ≠ 1000) := by
  decide

/-- C3 (amended): while resting with resume time `r`, the first fire is
deferred to `r` exactly when the default due instant `now + interval` is at
or before `r` (the fire would land inside the rest); otherwise it stays at
`now + interval` — i.e. the first fire is armed at
`max (now + interval) r`. -/
theorem start_tracking_rest_defer (initial now : Int) (rest : RestStore)
    (chat : Int) (task : TaskInfo) (im : Option Int) (uas nu : Bool)
    (ctx : String) (md : List (String × String)) (st : TrackerState)
    (users : UserStore) (r : Int)
    (hrest : is_resting now chat (some now) rest = true)
    (hr : next_resume_time now chat (some now) rest = some r) :
    ∃ en, tracked_entry?
        (start_tracking initial now rest chat task im uas nu ctx md st users).1
        chat task.id = some en ∧
      en.next_fire_at = max (now + effective_interval initial im) r ∧
      en.rest_resume_at = some r := by
  obtain ⟨en, hen, _, _, hnf, hra⟩ :=
    start_tracking_tracked initial now rest chat task im uas nu ctx md st users
  obtain ⟨r2, hr2, hlt⟩ := is_resting_next_resume now chat rest hrest
  rw [hr] at hr2
  have hreq : r2 = r := by
    injection hr2 with h
    exact h.symm
  rw [hreq] at hlt
  refine ⟨en, hen, ?_, ?_⟩
  · rw [hnf]
    simp only [start_delay_resume, hrest, if_true, hr]
    by_cases hd : now + effective_interval initial im ≤ r
    · rw [if_pos hd]
      dsimp only
      omega
    · rw [if_neg hd]
      dsimp only
      omega
  · rw [hra]
    simp only [start_delay_resume, hrest, if_true, hr]
    by_cases hd : now + effective_interval initial im ≤ r
    · rw [if_pos hd]
    · rw [if_neg hd]

/-- Witness for `start_tracking_rest_defer`. -/
theorem start_tracking_rest_defer_witness :
    (is_resting 0 1 (some 0) [w_rest_c3] = true ∧
      next_resume_time 0 1 (some 0) [w_rest_c3] = some 1000) ∧
    (∃ en, tracked_entry?
        (start_tracking 1500 0 [w_rest_c3] 1 ⟨"t", "T", "u"⟩ none false false
          "task" [] [] []).1 1 "t" = some en ∧
      en.next_fire_at = max (0 + effective_interval 1500 none) 1000 ∧
      en.rest_resume_at = some 1000) :=
  ⟨⟨by decide, by decide⟩,
   start_tracking_rest_defer 1500 0 [w_rest_c3] 1 ⟨"t", "T", "u"⟩ none false
     false "task" [] [] [] 1000 (by decide) (by decide)⟩

/-! ### Claim C2: reminder fire while resting -/

/-- C2: a reminder that fires while the chat is resting sends no message,
leaves `waiting` false, and is rescheduled to fire exactly at the next
resume time (`next_fire_at = now + (resume - now) = resume`), recording
`rest_resume_at = resume`. -/
theorem send_reminder_resting_silent (fu now : Int) (rest : RestStore)
    (chat : Int) (tid : String) (st : TrackerState) (en : TrackerEntry)
    (hen : tracked_entry? st chat tid = some en)
    (hrest : is_resting now chat (some now) rest = true) :
    ∃ r, next_resume_time now chat (some now) rest = some r ∧ now < r ∧
      (send_reminder fu now rest chat tid st).2 = [] ∧
      ∃ en2, tracked_entry? (send_reminder fu now rest chat tid st).1
          chat tid = some en2 ∧
        en2.waiting = false ∧ en2.next_fire_at = r ∧
        en2.rest_resume_at = some r := by
  obtain ⟨r, hr, hlt⟩ := is_resting_next_resume now chat rest hrest
  unfold tracked_entry? at hen
  obtain ⟨em, hm⟩ : ∃ em, st.lookup chat = some em := by
    cases hst : st.lookup chat with
    | none => rw [hst] at hen; simp at hen
    | some em => exact ⟨em, rfl⟩
  rw [hm] at hen
  simp only [Option.some_bind] at hen
  have hred : send_reminder fu now rest chat tid st =
      (tsSet st chat (mapUpdate em tid
        { en with timer := some { delay := r - now, started := true },
                  start_time := now, waiting := false,
                  next_fire_at := now + (r - now),
                  rest_resume_at := some r }), []) := by
    unfold send_reminder
    rw [hm]
    dsimp only
    rw [hen]
    dsimp only
    rw [hrest, hr]
    simp
  refine ⟨r, hr, hlt, by rw [hred], ?_⟩
  refine ⟨{ en with
      timer := some { delay := r - now, started := true },
      start_time := now, waiting := false,
      next_fire_at := now + (r - now),
      rest_resume_at := some r }, ?_, rfl, ?_, rfl⟩
  · rw [hred]
    unfold tracked_entry? tsSet
    rw [assocSet_lookup_self]
    simp only [Option.some_bind]
    exact mapUpdate_lookup_self tid _ en em hen
  · show now + (r - now) = r
    omega

/-- The tracker entry of the C2/C6 witnesses. -/
def e_c2 : TrackerEntry :=
  { task_id := "t", task_name := "T", task_url := "u",
    timer := some { delay := 600, started := true }, waiting := true,
    start_time := -5, interval_seconds := 1500, context := "task",
    metadata := [], next_fire_at := 0, rest_resume_at := none }

/-- Witness for `send_reminder_resting_silent`. -/
theorem send_reminder_resting_silent_witness :
    (tracked_entry? [(1, [("t", e_c2)])] 1 "t" = some e_c2 ∧
      is_resting 0 1 (some 0) [w_rest_c3] = true) ∧
    (∃ r, next_resume_time 0 1 (some 0) [w_rest_c3] = some r ∧ (0 : Int) < r ∧
      (send_reminder 600 0 [w_rest_c3] 1 "t" [(1, [("t", e_c2)])]).2 = [] ∧
      ∃ en2, tracked_entry? (send_reminder 600 0 [w_rest_c3] 1 "t"
          [(1, [("t", e_c2)])]).1 1 "t" = some en2 ∧
        en2.waiting = false ∧ en2.next_fire_at = r ∧
        en2.rest_resume_at = some r) :=
  ⟨⟨by decide, by decide⟩,
   send_reminder_resting_silent 600 0 [w_rest_c3] 1 "t" [(1, [("t", e_c2)])]
     e_c2 (by decide) (by decide)⟩


/-! ### Claim C6: DeferForRest -/

/-- C6 (amended): when called at a moment inside `[start, end)`,
`defer_for_rest` re-arms exactly those entries holding a timer whose
`next_fire_at` is at most `end` — regardless of their `waiting` flag — to
fire exactly at `end` (waiting cleared, `rest_resume_at = end`, fresh
started timer with delay `end - now`); entries with a timer firing after
`end` keep their timer and `next_fire_at` but get `rest_resume_at`
cleared; timerless entries are untouched. Outside `[start, end)` the call
is a no-op. -/
theorem defer_for_rest_spec (now s e chat : Int) (st : TrackerState)
    (em : EntryMap) (hm : st.lookup chat = some em) :
    (¬ (s ≤ now ∧ now < e) → defer_for_rest now chat s e st = st) ∧
    (s ≤ now → now < e →
      (defer_for_rest now chat s e st).lookup chat =
        some (em.map (defer_entry now e (max 1 (e - now)))) ∧
      ∀ (tid : String) (en : TrackerEntry),
        (defer_entry now e (max 1 (e - now)) (tid, en)).1 = tid ∧
        ((defer_entry now e (max 1 (e - now)) (tid, en)).2 = en ∨
          en.timer ≠ none) ∧
        (en.timer = none → (defer_entry now e (max 1 (e - now)) (tid, en)).2 = en) ∧
        (en.timer ≠ none → en.next_fire_at ≤ e →
          (defer_entry now e (max 1 (e - now)) (tid, en)).2.waiting = false ∧
          (defer_entry now e (max 1 (e - now)) (tid, en)).2.next_fire_at = e ∧
          (defer_entry now e (max 1 (e - now)) (tid, en)).2.rest_resume_at = some e ∧
          (defer_entry now e (max 1 (e - now)) (tid, en)).2.timer =
            some { delay := e - now, started := true }) ∧
        (en.timer ≠ none → e < en.next_fire_at →
          (defer_entry now e (max 1 (e - now)) (tid, en)).2.timer = en.timer ∧
          (defer_entry now e (max 1 (e - now)) (tid, en)).2.next_fire_at =
            en.next_fire_at ∧
          (defer_entry now e (max 1 (e - now)) (tid, en)).2.waiting = en.waiting ∧
          (defer_entry now e (max 1 (e - now)) (tid, en)).2.rest_resume_at = none)) := by
  constructor
  · intro hno
    unfold defer_for_rest
    rw [hm]
    dsimp only
    rw [if_pos hno]
  · intro hs hne
    have hmax : max 1 (e - now) = e - now := by omega
    constructor
    · unfold defer_for_rest
      rw [hm]
      dsimp only
      rw [if_neg (not_not_intro ⟨hs, hne⟩)]
      exact assocSet_lookup_self chat _ st
    · intro tid en
      cases ht : en.timer with
      | none =>
        refine ⟨by simp [defer_entry, ht], Or.inl (by simp [defer_entry, ht]),
          fun _ => by simp [defer_entry, ht], by simp [ht], by simp [ht]⟩
      | some t =>
        by_cases hrra : en.rest_resume_at = none <;>
          by_cases hf : e < en.next_fire_at
        · refine ⟨by simp [defer_entry, ht, hrra, hf], Or.inr (by simp),
            by simp [ht], fun _ hle => absurd hf (by omega), fun _ _ => ?_⟩
          simp [defer_entry, ht, hrra, hf]
        · refine ⟨by simp [defer_entry, ht, hrra, hf], Or.inr (by simp),
            by simp [ht], fun _ _ => ?_, fun _ hgt => absurd hgt hf⟩
          simp [defer_entry, ht, hrra, hf, hmax]
        · refine ⟨by simp [defer_entry, ht, hrra, hf], Or.inr (by simp),
            by simp [ht], fun _ hle => absurd hf (by omega), fun _ _ => ?_⟩
          simp [defer_entry, ht, hrra, hf]
        · refine ⟨by simp [defer_entry, ht, hrra, hf], Or.inr (by simp),
            by simp [ht], fun _ _ => ?_, fun _ hgt => absurd hgt hf⟩
          simp [defer_entry, ht, hrra, hf, hmax]

/-- C6 (counterexample): `e_c2` is waiting (with a live follow-up timer) and
its next fire (t=0) falls inside the rest `[0,100]`; the claim says only
armed (non-waiting) entries are re-armed, but the code re-arms it anyway:
after the call its next fire is 100 and `waiting` has been cleared. -/
theorem defer_for_rest_claim_counterexample :
    e_c2.waiting = true ∧ e_c2.next_fire_at = 0 ∧
    (tracked_entry? (defer_for_rest 10 1 0 100 [(1, [("t", e_c2)])]) 1 "t").map
      (fun en => (en.waiting, en.next_fire_at)) = some (false, 100) ∧
    ((100 : Int) ≠ 0) := by
  decide

/-- Witness for `defer_for_rest_spec`. -/
theorem defer_for_rest_spec_witness :
    (List.lookup 1 [(1, [("t", e_c2)])] = some [("t", e_c2)]) ∧
    ((¬ ((0 : Int) ≤ 10 ∧ (10 : Int) < 100) →
        defer_for_rest 10 1 0 100 [(1, [("t", e_c2)])] = [(1, [("t", e_c2)])]) ∧
      ((0 : Int) ≤ 10 → (10 : Int) < 100 →
        (defer_for_rest 10 1 0 100 [(1, [("t", e_c2)])]).lookup 1 =
          some ([("t", e_c2)].map (defer_entry 10 100 (max 1 (100 - 10)))) ∧
        ∀ (tid : String) (en : TrackerEntry),
          (defer_entry 10 100 (max 1 (100 - 10)) (tid, en)).1 = tid ∧
          ((defer_entry 10 100 (max 1 (100 - 10)) (tid, en)).2 = en ∨
            en.timer ≠ none) ∧
          (en.timer = none →
            (defer_entry 10 100 (max 1 (100 - 10)) (tid, en)).2 = en) ∧
          (en.timer ≠ none → en.next_fire_at ≤ 100 →
            (defer_entry 10 100 (max 1 (100 - 10)) (tid, en)).2.waiting = false ∧
            (defer_entry 10 100 (max 1 (100 - 10)) (tid, en)).2.next_fire_at = 100 ∧
            (defer_entry 10 100 (max 1 (100 - 10)) (tid, en)).2.rest_resume_at =
              some 100 ∧
            (defer_entry 10 100 (max 1 (100 - 10)) (tid, en)).2.timer =
              some { delay := 100 - 10, started := true }) ∧
          (en.timer ≠ none → 100 < en.next_fire_at →
            (defer_entry 10 100 (max 1 (100 - 10)) (tid, en)).2.timer = en.timer ∧
            (defer_entry 10 100 (max 1 (100 - 10)) (tid, en)).2.next_fire_at =
              en.next_fire_at ∧
            (defer_entry 10 100 (max 1 (100 - 10)) (tid, en)).2.waiting =
              en.waiting ∧
            (defer_entry 10 100 (max 1 (100 - 10)) (tid, en)).2.rest_resume_at =
              none))) :=
  ⟨by decide, defer_for_rest_spec 10 0 100 1 [(1, [("t", e_c2)])]
    [("t", e_c2)] (by decide)⟩

/-! ### Claim C9: action-state normalization transitions -/

/-- C9 (counterexample) input state: tracked task was in progress, with a
recorded update and prompt marker. -/
def us_c9 : UserState :=
  { action := "推进中", action_updated_at := some 5, action_prompted_at := some 3 }

/-- C9 (counterexample): the in-progress-to-unknown transition (tracker
disappeared, not resting) does reset `prompted_at`, but it clears
`updated_at` to empty instead of refreshing it to the current time. -/
theorem normalize_action_claim_counterexample :
    (normalize_action 100 us_c9 (some false) (some false)).2 = true ∧
    (normalize_action 100 us_c9 (some false) (some false)).1.action =
      "unknown" ∧
    (normalize_action 100 us_c9 (some false) (some false)).1.action_updated_at =
      none ∧
    ((none : Option Int) ≠ some 100) := by
  decide

/-- C9 (amended): every normalization transition of the action dimension
resets `action_prompted_at` and refreshes `action_updated_at` to the current
time — except the in-progress-to-unknown transition taken when the tracker
disappeared, which clears `action_updated_at` to empty instead. -/
theorem normalize_action_transitions (now : Int) (st : UserState)
    (ht ir : Option Bool)
    (hch : (normalize_action now st ht ir).2 = true) :
    (normalize_action now st ht ir).1.action_prompted_at = none ∧
    ((normalize_action now st ht ir).1.action_updated_at = some now ∨
      (st.action = "推进中" ∧ optTruthy ht = false ∧ optTruthy ir = false ∧
        (normalize_action now st ht ir).1.action = "unknown" ∧
        (normalize_action now st ht ir).1.action_updated_at = none)) := by
  unfold normalize_action at hch ⊢
  split_ifs at hch ⊢ <;> simp_all

/-- Witness for `normalize_action_transitions`. -/
theorem normalize_action_transitions_witness :
    ((normalize_action 100 us_c9 (some false) (some false)).2 = true) ∧
    ((normalize_action 100 us_c9 (some false) (some false)).1.action_prompted_at =
        none ∧
      ((normalize_action 100 us_c9 (some false) (some false)).1.action_updated_at =
          some 100 ∨
        (us_c9.action = "推进中" ∧ optTruthy (some false) = false ∧
          optTruthy (some false) = false ∧
          (normalize_action 100 us_c9 (some false) (some false)).1.action =
            "unknown" ∧
          (normalize_action 100 us_c9 (some false) (some false)).1.action_updated_at =
            none))) :=
  ⟨by decide,
   normalize_action_transitions 100 us_c9 (some false) (some false) (by decide)⟩

/-! ### Proactivity scheduler (`proactivity.py`) -/

def STATE_EVENT : String := "state_prompt"
def QUESTION_EVENT : String := "question_follow_up"

/-- `proactivity.py` `PendingQuestion`. -/
structure PendingQuestion where
  text : String
  asked_at : Int
  timer : Option PyTimer := none
  deriving Repr, DecidableEq

/-- `proactivity.py` `ChatTimers`. -/
structure ChatTimers where
  state_timer : Option PyTimer := none
  pending_question : Option PendingQuestion := none
  deriving Repr, DecidableEq

abbrev TimersMap := List (Int × ChatTimers)

/-- An event passed to the registered handler. -/
structure PEvent where
  etype : String
  question : String
  deriving Repr, DecidableEq

/-- The scheduler's intervals, after the constructor clamps
(`max(60, state_check)`, `max(300, stale)`, `max(300, cooldown)`,
`max(60, follow_up)`). -/
structure ProCfg where
  state_check_seconds : Int
  state_stale_seconds : Int
  state_prompt_cooldown : Int
  follow_up_seconds : Int
  deriving Repr, DecidableEq

/-- The recent-cancel grace step of `_adjust_due_for_rest` (its last lines):
push the due time to two minutes after a just-cancelled active rest. -/
def adjust_after_rest (now : Int) (recent : List (Int × Int)) (chat : Int)
    (d : Int) : Option Int :=
  match recent_cancelled_at now chat recent with
  | some rc => if now < rc + 120 then some (rc + 120) else some d
  | none => some d

/-- The due-time step of `_adjust_due_for_rest`: a rest window covering the
due instant pushes the due time to its end. -/
def adjust_due_at (now : Int) (rest : RestStore) (recent : List (Int × Int))
    (chat : Int) (d : Int) : Option Int :=
  match current_window now chat (some d) "rest" rest with
  | some wd => if d < wd.stop then some wd.stop else adjust_after_rest now recent chat d
  | none => adjust_after_rest now recent chat d

/-- `ProactivityService._adjust_due_for_rest`. -/
def adjust_due_for_rest (now : Int) (rest : RestStore)
    (recent : List (Int × Int)) (chat : Int) (due : Option Int) : Option Int :=
  match due with
  | none => none
  | some d =>
    match current_window now chat (some now) "rest" rest with
    | some aw =>
      if now ≤ aw.stop then some aw.stop
      else adjust_due_at now rest recent chat d
    | none => adjust_due_at now rest recent chat d

/-- `ProactivityService._state_due`. -/
def state_due (cfg : ProCfg) (now : Int) (rest : RestStore)
    (recent : List (Int × Int)) (chat : Int) (value : String)
    (updated_at prompted_at : Option Int) : Bool × Option Int :=
  let threshold :=
    match updated_at with
    | some u => u + cfg.state_stale_seconds
    | none => now
  let due0 := adjust_due_for_rest now rest recent chat (some threshold)
  let due1 :=
    match prompted_at with
    | some p =>
      (match due0 with
       | some d =>
         if d < p + cfg.state_prompt_cooldown then some (p + cfg.state_prompt_cooldown)
         else some d
       | none => none)
    | none => due0
  let pending := value == "unknown" || updated_at.isNone || decide (threshold ≤ now)
  let due2 :=
    if pending then
      (match due1 with
       | some d => if d < now then some now else some d
       | none => none)
    else due1
  (pending, due2)

/-- `bool(self._tracker.list_active(chat_id))` (the bot wires a tracker). -/
def has_active_tracker (chat : Int) (st : TrackerState) : Bool :=
  !(list_active chat st).isEmpty

/-- The state the proactivity service reads and writes. -/
structure ProSys where
  users : UserStore
  timers : TimersMap
  rest : RestStore
  recent : List (Int × Int)
  tracker : TrackerState
  deriving Repr, DecidableEq

structure DimInfo where
  pending : Bool
  due_time : Option Int
  value : String
  deriving Repr, DecidableEq

structure QuestionInfo where
  pending : Bool
  question : Option String := none
  due_time : Option Int := none
  deriving Repr, DecidableEq

structure RestInfo where
  active : Bool
  current_end : Option Int
  next_resume : Option Int
  next_window_start : Option Int
  next_window_end : Option Int
  next_window_status : Option String
  deriving Repr, DecidableEq

structure PromptsInfo where
  action : DimInfo
  mental : DimInfo
  question : QuestionInfo
  rest : RestInfo
  deriving Repr, DecidableEq

/-- `ProactivityService.describe_next_prompts` (the Beijing-ISO rendering of
instants is abstracted to the raw timestamps). Returns the report and the
post-call state: the user store as persisted by the normalizing `get_state`
read, and the stores swept by the rest-service queries. -/
def describe_next_prompts (cfg : ProCfg) (now : Int) (chat : Int)
    (sys : ProSys) : PromptsInfo × ProSys :=
  let ir := is_resting now chat (some now) sys.rest
  let ht := has_active_tracker chat sys.tracker
  let gs := get_state now chat (some ht) (some ir) sys.users
  let ad := state_due cfg now sys.rest sys.recent chat gs.1.action
    gs.1.action_updated_at gs.1.action_prompted_at
  let md := state_due cfg now sys.rest sys.recent chat gs.1.mental
    gs.1.mental_updated_at gs.1.mental_prompted_at
  let qinfo : QuestionInfo :=
    match sys.timers.lookup chat with
    | some t =>
      match t.pending_question with
      | some pq =>
        { pending := true, question := some pq.text,
          due_time := some (pq.asked_at + cfg.follow_up_seconds) }
      | none => { pending := false }
    | none => { pending := false }
  let rw := current_window now chat (some now) "rest" sys.rest
  let nr := next_resume_time now chat (some now) sys.rest
  let nw := next_window now chat sys.rest
  ({ action := { pending := ad.1, due_time := ad.2, value := gs.1.action },
     mental := { pending := md.1, due_time := md.2, value := gs.1.mental },
     question := qinfo,
     rest := { active := rw.isSome, current_end := rw.map (fun w => w.stop),
               next_resume := nr,
               next_window_start := nw.map (fun w => w.start),
               next_window_end := nw.map (fun w => w.stop),
               next_window_status := nw.map (fun w => w.status) } },
   { sys with users := gs.2, rest := prune_expired now sys.rest,
              recent := prune_recent_cancelled now sys.recent })

/-- `ProactivityService._handle_question_timeout`. In both branches the
replacement timer object is constructed by the factory but `start()` is
never invoked on it — mirrored by `started := false`. -/
def handle_question_timeout (cfg : ProCfg) (now : Int) (rest : RestStore)
    (chat : Int) (timers : TimersMap) (handler_set : Bool) :
    TimersMap × List PEvent :=
  match timers.lookup chat with
  | none => (timers, [])
  | some ct =>
    match ct.pending_question with
    | none => (timers, [])
    | some q =>
      if is_resting now chat (some now) rest then
        let delay :=
          match next_resume_time now chat (some now) rest with
          | some r => r - now
          | none => cfg.follow_up_seconds
        let q1 := { q with timer := some { delay := delay, started := false } }
        (assocSet timers chat { ct with pending_question := some q1 }, [])
      else
        let q1 := { q with
          asked_at := now,
          timer := some { delay := cfg.follow_up_seconds, started := false } }
        (assocSet timers chat { ct with pending_question := some q1 },
         if handler_set then [{ etype := QUESTION_EVENT, question := q.text }] else [])

/-! ### Claim C5: DescribeNextPrompts as a read -/

/-- Normalization never touches the mental dimension. -/
theorem normalize_action_mental (now : Int) (st : UserState)
    (ht ir : Option Bool) :
    (normalize_action now st ht ir).1.mental = st.mental ∧
    (normalize_action now st ht ir).1.mental_updated_at = st.mental_updated_at ∧
    (normalize_action now st ht ir).1.mental_prompted_at = st.mental_prompted_at := by
  unfold normalize_action
  split_ifs <;> simp

def cfg_c5 : ProCfg :=
  { state_check_seconds := 300, state_stale_seconds := 3600,
    state_prompt_cooldown := 600, follow_up_seconds := 600 }

/-- The C5 counterexample system: chat 1 is resting (window until t=1000)
and has no stored state yet. -/
def sys_c5 : ProSys :=
  { users := [], timers := [], rest := [w_rest_c3], recent := [], tracker := [] }

/-- C5 (counterexample): `DescribeNextPrompts` is not a pure read — for a
resting chat whose stored action is still `unknown`, the normalizing
`get_state` call inside it persists the transition to resting, so the
stored user state changes. -/
theorem describe_next_prompts_claim_counterexample :
    sys_c5.users.lookup 1 = none ∧
    ((describe_next_prompts cfg_c5 0 1 sys_c5).2.users.lookup 1).map
      (fun st => (st.action, st.action_updated_at)) = some ("休息中", some 0) ∧
    (describe_next_prompts cfg_c5 0 1 sys_c5).2.users ≠ sys_c5.users := by
  decide

/-- C5 (amended): `DescribeNextPrompts` never touches timers, tracker
entries, other chats' stored states, or the mental dimension, and does not
itself stamp `prompted_at`; but its `get_state` read normalizes the action
dimension against live tracker/rest status and persists any resulting
transition (which updates `action`, `action_updated_at` and clears
`action_prompted_at`). -/
theorem describe_next_prompts_frame (cfg : ProCfg) (now chat : Int)
    (sys : ProSys) :
    (describe_next_prompts cfg now chat sys).2.timers = sys.timers ∧
    (describe_next_prompts cfg now chat sys).2.tracker = sys.tracker ∧
    (∀ c, c ≠ chat →
      (describe_next_prompts cfg now chat sys).2.users.lookup c =
        sys.users.lookup c) ∧
    ((describe_next_prompts cfg now chat sys).2.users =
      (get_state now chat (some (has_active_tracker chat sys.tracker))
        (some (is_resting now chat (some now) sys.rest)) sys.users).2) ∧
    (∀ st2, (describe_next_prompts cfg now chat sys).2.users.lookup chat =
        some st2 →
      st2.mental = ((sys.users.lookup chat).getD {}).mental ∧
      st2.mental_updated_at = ((sys.users.lookup chat).getD {}).mental_updated_at ∧
      st2.mental_prompted_at = ((sys.users.lookup chat).getD {}).mental_prompted_at) := by
  refine ⟨rfl, rfl, ?_, rfl, ?_⟩
  · intro c hc
    show (get_state now chat (some (has_active_tracker chat sys.tracker))
        (some (is_resting now chat (some now) sys.rest)) sys.users).2.lookup c =
      sys.users.lookup c
    unfold get_state
    rw [if_pos (Or.inl (by simp))]
    dsimp only
    by_cases hch : (normalize_action now ((sys.users.lookup chat).getD {})
        (some (has_active_tracker chat sys.tracker))
        (some (is_resting now chat (some now) sys.rest))).2
    · rw [if_pos hch]
      exact assocSet_lookup_other chat c _ hc sys.users
    · rw [if_neg hch]
  · intro st2
    show (get_state now chat (some (has_active_tracker chat sys.tracker))
        (some (is_resting now chat (some now) sys.rest)) sys.users).2.lookup chat =
      some st2 → _
    unfold get_state
    rw [if_pos (Or.inl (by simp))]
    dsimp only
    by_cases hch : (normalize_action now ((sys.users.lookup chat).getD {})
        (some (has_active_tracker chat sys.tracker))
        (some (is_resting now chat (some now) sys.rest))).2
    · rw [if_pos hch]
      intro hlk
      rw [show (setUser sys.users chat (normalize_action now
          ((sys.users.lookup chat).getD {})
          (some (has_active_tracker chat sys.tracker))
          (some (is_resting now chat (some now) sys.rest))).1) =
        assocSet sys.users chat (normalize_action now
          ((sys.users.lookup chat).getD {})
          (some (has_active_tracker chat sys.tracker))
          (some (is_resting now chat (some now) sys.rest))).1 from rfl,
        assocSet_lookup_self] at hlk
      have hst2 := (Option.some.injEq _ _).mp hlk
      rw [← hst2]
      exact normalize_action_mental now _ _ _
    · rw [if_neg hch]
      intro hlk
      rw [hlk]
      exact ⟨rfl, rfl, rfl⟩

/-- Witness for `describe_next_prompts_frame`. -/
theorem describe_next_prompts_frame_witness :
    (describe_next_prompts cfg_c5 0 1 sys_c5).2.timers = sys_c5.timers ∧
    (describe_next_prompts cfg_c5 0 1 sys_c5).2.tracker = sys_c5.tracker ∧
    (∀ c, c ≠ 1 →
      (describe_next_prompts cfg_c5 0 1 sys_c5).2.users.lookup c =
        sys_c5.users.lookup c) ∧
    ((describe_next_prompts cfg_c5 0 1 sys_c5).2.users =
      (get_state 0 1 (some (has_active_tracker 1 sys_c5.tracker))
        (some (is_resting 0 1 (some 0) sys_c5.rest)) sys_c5.users).2) ∧
    (∀ st2, (describe_next_prompts cfg_c5 0 1 sys_c5).2.users.lookup 1 =
        some st2 →
      st2.mental = ((sys_c5.users.lookup 1).getD {}).mental ∧
      st2.mental_updated_at = ((sys_c5.users.lookup 1).getD {}).mental_updated_at ∧
      st2.mental_prompted_at = ((sys_c5.users.lookup 1).getD {}).mental_prompted_at) :=
  describe_next_prompts_frame cfg_c5 0 1 sys_c5

/-! ### Claim C8: pending-question timeout -/

/-- The pending question of the C8 scenario (its original armed timer). -/
def ct_c8 : ChatTimers :=
  { state_timer := none,
    pending_question := some
      { text := "进展如何？", asked_at := -600,
        timer := some { delay := 600, started := true } } }

/-- After the resting-branch reschedule: delay reaches to the resume time,
but the timer was never started. -/
def pq_c8r : PendingQuestion :=
  { text := "进展如何？", asked_at := -600,
    timer := some { delay := 1000, started := false } }

/-- After the non-resting re-arm: delay `follow_up_seconds`, never started. -/
def pq_c8f : PendingQuestion :=
  { text := "进展如何？", asked_at := 0,
    timer := some { delay := 600, started := false } }

/-- C8 (code evaluation at the failing input): on timeout while resting the
question is silently rescheduled with delay `resume - now`, and otherwise
the unanswered event fires and the question is re-armed for
`follow_up_seconds` — but in both branches the replacement timer is
constructed without ever being started (`started = false`), so it will
never fire. -/
theorem question_timeout_timer_not_started :
    (handle_question_timeout cfg_c5 0 [w_rest_c3] 1 [(1, ct_c8)] true).2 = [] ∧
    ((handle_question_timeout cfg_c5 0 [w_rest_c3] 1 [(1, ct_c8)] true).1.lookup 1).bind
      (fun ct => ct.pending_question) = some pq_c8r ∧
    (handle_question_timeout cfg_c5 0 [] 1 [(1, ct_c8)] true).2 =
      [{ etype := QUESTION_EVENT, question := "进展如何？" }] ∧
    ((handle_question_timeout cfg_c5 0 [] 1 [(1, ct_c8)] true).1.lookup 1).bind
      (fun ct => ct.pending_question) = some pq_c8f := by
  decide

/-! ### Session monitor (`session_monitor.py`) and claim C4 -/

/-- The external record store interface the monitor consumes
(spec section 6: `GetTask` / `FindByName` / `EnsureTask`). -/
structure TaskRepo where
  get_task : String → Option TaskInfo
  find_by_name : String → Option TaskInfo
  ensure_task : String → TaskInfo

/-- One entry of `TaskSessionMonitor._active_sessions`. -/
structure SessionInfo where
  chat_id : Int
  task_name : String
  task : TaskInfo
  deriving Repr, DecidableEq

/-- `TaskSessionMonitor` timer/session bookkeeping. -/
structure MonitorState where
  start_timers : List (String × PyTimer) := []
  end_timers : List (String × PyTimer) := []
  active_sessions : List (String × SessionInfo) := []
  deriving Repr, DecidableEq

/-- The state the monitor's end handler reads and writes, plus the message
log. -/
structure BotSys where
  rest : RestStore
  tracker : TrackerState
  users : UserStore
  monitor : MonitorState
  msgs : List Msg
  deriving Repr, DecidableEq

/-- `TaskSessionMonitor._cancel_locked`. -/
def cancel_locked (wid : String) (mon : MonitorState) : MonitorState :=
  { mon with start_timers := mon.start_timers.filter (fun p => p.1 != wid),
             end_timers := mon.end_timers.filter (fun p => p.1 != wid) }

/-- `core.utils.timezone.format_beijing`: the UTC+8 wall-clock rendering is
abstracted to the shifted timestamp. -/
def format_beijing (t : Int) : String := toString (t + 28800)

/-- `window.task_name or window.note or "（未命名任务）"`. -/
def window_label (w : RestWindow) : String :=
  match w.task_name with
  | some n => if n ≠ "" then n else (if w.note ≠ "" then w.note else "（未命名任务）")
  | none => if w.note ≠ "" then w.note else "（未命名任务）"

/-- `TaskSessionMonitor._notify`. -/
def notify_end (w : RestWindow) : Msg :=
  { chat_id := w.chat_id,
    text := "⏰ 任务时间块已结束：" ++ window_label w ++ "\n结束时间：" ++
      format_beijing w.stop ++ "\n请确认是否完成该任务，必要时重新规划新的时间段。" }

/-- `TaskSessionMonitor._resolve_task`. -/
def resolve_task (repo : Option TaskRepo) (w : RestWindow) : Option TaskInfo :=
  match repo with
  | none => none
  | some repo =>
    let t1 :=
      match w.task_id with
      | some tid => if tid ≠ "" then repo.get_task tid else none
      | none => none
    match t1 with
    | some t => some t
    | none =>
      let t2 :=
        match w.task_name with
        | some n => if n ≠ "" then repo.find_by_name n else none
        | none => none
      match t2 with
      | some t => some t
      | none =>
        let inferred :=
          match w.task_name with
          | some n => if n ≠ "" then n else (if w.note ≠ "" then w.note else "任务时间块")
          | none => if w.note ≠ "" then w.note else "任务时间块"
        some (repo.ensure_task inferred)

/-- A Python call `stop_tracking(chat_id, <kw>=hint)`: the method declares
only `chat_id` and `task_hint`, so any other keyword name raises a
`TypeError` before the body runs. -/
def stop_tracking_kw (kw : String) (hint : Option String) (now : Int)
    (rest : RestStore) (chat : Int) (st : TrackerState) (users : UserStore) :
    Except String (TrackerState × UserStore × Option TrackerEntry) :=
  if kw = "task_hint" then Except.ok (stop_tracking now rest chat hint st users)
  else Except.error ("stop_tracking() got an unexpected keyword argument " ++ kw)

/-- `_handle_end` after the stop-tracking step: notify, resolve the
follow-up task, request block-follow-up feedback, delete the window, cancel
the timers. -/
def handle_end_tail (follow_up now : Int) (repo : Option TaskRepo)
    (has_tracker : Bool) (w : RestWindow) (active_task : Option TaskInfo)
    (rest1 : RestStore) (st : TrackerState) (users : UserStore)
    (mon : MonitorState) (msgs : List Msg) : BotSys :=
  let msgs1 := msgs ++ [notify_end w]
  let follow_task :=
    match active_task with
    | some t => some t
    | none => resolve_task repo w
  let step :=
    match follow_task with
    | some t =>
      if has_tracker then
        request_feedback follow_up now w.chat_id t
          ("⌛ " ++ t.name ++
            " 的时间块已结束。\n请说明是否完成、遇到了哪些问题，以及下一步安排，我将根据反馈继续提醒。")
          "block_follow_up" [("window_id", w.id)] st
      else (st, [])
    | none => (st, [])
  let dw := delete_window now w.id rest1
  { rest := dw.2, tracker := step.1, users := users,
    monitor := cancel_locked w.id mon, msgs := msgs1 ++ step.2 }

/-- `TaskSessionMonitor._handle_end`. The second component carries the
uncaught exception, if any: with an active session and a wired tracker the
call `stop_tracking(chat_id, ensure_name=...)` raises `TypeError` (the
method's only keyword parameter is `task_hint`), killing the callback after
the session was popped and before any of the end effects run. -/
def handle_end (follow_up now : Int) (repo : Option TaskRepo)
    (has_tracker : Bool) (wid : String) (sys : BotSys) :
    BotSys × Option String :=
  let gw := get_window now wid sys.rest
  match gw.1 with
  | none =>
    ({ sys with rest := gw.2, monitor := cancel_locked wid sys.monitor }, none)
  | some w =>
    let active := sys.monitor.active_sessions.lookup wid
    let mon1 := { sys.monitor with
      active_sessions := sys.monitor.active_sessions.filter (fun p => p.1 != wid) }
    match active with
    | some a =>
      match (if has_tracker then
          stop_tracking_kw "ensure_name" (some a.task_name) now gw.2 a.chat_id
            sys.tracker sys.users
        else Except.ok (sys.tracker, sys.users, none)) with
      | Except.error m =>
        ({ sys with rest := gw.2, monitor := mon1 }, some m)
      | Except.ok (st1, us1, _) =>
        (handle_end_tail follow_up now repo has_tracker w (some a.task) gw.2
          st1 us1 mon1 sys.msgs, none)
    | none =>
      (handle_end_tail follow_up now repo has_tracker w none gw.2 sys.tracker
        sys.users mon1 sys.msgs, none)

/-- The task window of the C4 scenario. -/
def w_c4 : RestWindow :=
  { id := "w4", chat_id := 1, start := 0, stop := 100, status := "approved",
    note := "", created_at := 0, session_type := "task",
    task_id := some "t", task_name := some "T" }

def si_c4 : SessionInfo := { chat_id := 1, task_name := "T", task := ⟨"t", "T", "u"⟩ }

/-- The C4 system when the end timer fires: active session for `w4`, a
tracked task, the window still stored. -/
def sys_c4 : BotSys :=
  { rest := [w_c4], tracker := [(1, [("t", e_c2)])], users := [],
    monitor := { start_timers := [],
                 end_timers := [("w4", { delay := 100, started := true })],
                 active_sessions := [("w4", si_c4)] },
    msgs := [] }

def repo_c4 : TaskRepo :=
  { get_task := fun _ => none, find_by_name := fun _ => none,
    ensure_task := fun n => ⟨n, n, ""⟩ }

/-- C4 (code evaluation at the failing input): when the end timer fires for
a window with an active session, `_handle_end` dies in the
`stop_tracking(..., ensure_name=...)` call with a `TypeError` — no reminder
schedule is stopped, no end notification is sent, no `block_follow_up`
feedback entry is created, and the window is never deleted; only the active
session was popped before the crash. -/
theorem handle_end_active_session_type_error :
    (handle_end 600 100 (some repo_c4) true "w4" sys_c4).2 =
      some "stop_tracking() got an unexpected keyword argument ensure_name" ∧
    (handle_end 600 100 (some repo_c4) true "w4" sys_c4).1.msgs = [] ∧
    w_c4 ∈ (handle_end 600 100 (some repo_c4) true "w4" sys_c4).1.rest ∧
    (handle_end 600 100 (some repo_c4) true "w4" sys_c4).1.tracker =
      sys_c4.tracker ∧
    (handle_end 600 100 (some repo_c4) true "w4" sys_c4).1.monitor.active_sessions =
      [] := by
  decide
